import Mathlib

set_option autoImplicit false

/-!
Verification of the chunk placement / replication / repair / reassembly engine
of the `file_storage` Django application (hotel-file-system repository).

The shallow embedding below translates the relevant Python source into Lean:

* `src/file_storage/models.py`   — data model (`ChunkStatus`, `FileNode`, `FileChunk`)
* `src/file_storage/utils.py`    — `FileChunker.chunk_file`,
  `FileChunker.reassemble_file_optimized` (the second definition at line 307,
  which shadows the first one in Python)
* `src/file_storage/retrieval.py` — `NodeSelector.select_node_for_retrieval`
* `src/file_storage/node_manager.py` — `NodeManager.get_primary_node`
* `src/file_storage/health.py`   — `SystemHealth.get_overall_status`
* `src/file_storage/redundancy.py` — `RedundancyManager.create_replicas_for_chunk`,
  `create_replica_on_node`, `repair_chunk`, `check_file_integrity`
* `src/file_storage/management/commands/process_pending_replications.py` —
  the pending-replication drain loop

Modelling conventions:

* Byte strings are `List Nat`.
* SHA-256 is abstracted as an arbitrary function `hash : List Nat → Nat`;
  the code uses no property of the digest other than deterministic equality,
  so every theorem is quantified over the digest function.
* The object stores of all nodes are a single map from object keys to byte
  strings (an association list, first match wins).  This matches the source:
  the operative reassembly path reads through `default_storage.open(path)`
  and ignores the node, and object keys embed a fresh `uuid4` nonce making
  them globally unique.
* Object keys `chunks/{owner}/{file_id}_{chunk_number}_{nonce}.chunk` and
  `replicas/{owner}/{file_id}_{chunk_number}_{nonce}.chunk` are modelled
  structurally by `StoragePath` (the `dir` flag distinguishes the
  `chunks/` and `replicas/` prefixes); the `uuid4`/timestamp nonce is the
  `nonce` field.
* Database side effects are modelled by explicit state passing: functions
  take and return the list of chunk rows and the object store.
* Network / backend outcomes (`put_object` success, node availability,
  node selection by `elect_best_node_for_upload`) are oracles passed as
  function arguments, so theorems quantify over every possible behaviour
  of the remote backends.
-/

namespace FileStorage

/-- Chunk lifecycle states, from `ChunkStatus` in `models.py`. -/
inductive ChunkStatus where
  | pending
  | uploading
  | uploaded
  | failed
  | corrupt
deriving DecidableEq, Repr

/-- Node administrative states, from the `status` choices of `FileNode` in `models.py`. -/
inductive NodeStatus where
  | active
  | inactive
  | maintenance
deriving DecidableEq, Repr

/-- A storage node.  `id`, `status` come from `FileNode` in `models.py`.
Modelled from the spec: the `priority` and `is_primary` columns are read and
written by `node_manager.py` (`get_primary_node`) but are missing from the
`FileNode` class in `src/file_storage/models.py`; they are declared here
following the spec's data model (`priority` (lower = preferred), `is_primary`). -/
structure FileNode where
  id : Nat
  priority : Nat
  status : NodeStatus
  is_primary : Bool
deriving DecidableEq, Repr

/-- Structural model of an object key
`{dir}/{owner}/{file_id}_{chunk_number}_{nonce}.chunk`.
`dir = false` is the `chunks/` prefix, `dir = true` the `replicas/` prefix.
The `uuid4` (or timestamp) component is the `nonce` field; in the source it
makes object keys globally unique, which the structural representation keeps. -/
structure StoragePath where
  dir : Bool
  fileId : Nat
  chunkNumber : Nat
  nonce : Nat
deriving DecidableEq, Repr

/-- A chunk metadata row, from `FileChunk` in `models.py`.
`node` is the id of the owning `FileNode` (nullable foreign key). -/
structure FileChunk where
  id : Nat
  fileId : Nat
  chunk_number : Nat
  size_bytes : Nat
  checksum : Nat
  storage_path : StoragePath
  node : Option Nat
  is_replica : Bool
  status : ChunkStatus
deriving DecidableEq, Repr

/-- The combined backend object stores: object key to stored bytes. -/
abbrev Store := List (StoragePath × List Nat)

/-- Read the object stored under a key (`GetObject` / `default_storage.open`).
`none` models the I/O exception raised for a missing object. -/
def storeLookup (store : Store) (p : StoragePath) : Option (List Nat) :=
  (store.find? (fun e => decide (e.1 = p))).map (·.2)

/-- Fuel-indexed body of the fixed-size split; the first argument only
serves structural termination and is always at least the remaining byte
count plus one, so the zero-fuel case is never reached. -/
def chunksGo : Nat → Nat → List Nat → List (List Nat)
  | _, _, [] => []
  | _, 0, _ :: _ => []
  | 0, _ + 1, _ :: _ => []
  | fuel + 1, cs + 1, b :: rest =>
    (b :: rest).take (cs + 1) :: chunksGo fuel (cs + 1) (rest.drop cs)

/-- The fixed-size split performed by the `while` loop of
`FileChunker.chunk_file` (`utils.py` line 67): `file_obj.read(chunk_size)`
until an empty read.  A zero `chunk_size` makes the first `read(0)` return
empty bytes, ending the loop at once. -/
def chunksOfBytes (cs : Nat) (data : List Nat) : List (List Nat) :=
  chunksGo (data.length + 1) cs data

/-- The object key chosen for primary chunk `i` of file `fid` in `chunk_file`
(`utils.py` line 81): `chunks/{owner}/{file_id}_{i}_{uuid4}.chunk`.
The nonce is fresh per chunk; taking the chunk number as nonce keeps the
source's key-uniqueness. -/
def mkChunkPath (fid i : Nat) : StoragePath :=
  { dir := false, fileId := fid, chunkNumber := i, nonce := i }

/-- The `FileChunk.objects.create(...)` row inserted by `chunk_file` once a
chunk is stored (`utils.py` lines 97 and 131): `is_replica` keeps its model
default `false`, `status` is `UPLOADED`. -/
def mkChunkRow (hash : List Nat → Nat) (fid i nodeId : Nat) (d : List Nat) : FileChunk :=
  { id := i
    fileId := fid
    chunk_number := i
    size_bytes := d.length
    checksum := hash d
    storage_path := mkChunkPath fid i
    node := some nodeId
    is_replica := false
    status := ChunkStatus.uploaded }

/-- The per-chunk storage loop of `FileChunker.chunk_file` (`utils.py`
lines 67-156), starting at chunk number `i`.

* `select i` is the outcome of `NodeManager.elect_best_node_for_upload`
  for chunk `i` (`none` = no available node);
* `putOk i n` is whether `put_object` of chunk `i` to node `n` succeeds;
* `nodes` is the active-node list fetched once at the start of the upload.

On a `put_object` failure the source computes
`alternative_nodes = [n for n in nodes if n.id != node.id]` and retries on
`alternative_nodes[0]` only; a second failure rolls back and raises. -/
def uploadChunks (hash : List Nat → Nat) (select : Nat → Option FileNode)
    (putOk : Nat → FileNode → Bool) (nodes : List FileNode) (fid : Nat) :
    Nat → List (List Nat) → Except String (List FileChunk × Store)
  | _, [] => Except.ok ([], [])
  | i, d :: rest =>
    match select i with
    | none => Except.error "No available nodes to store chunk"
    | some node =>
      if putOk i node then
        match uploadChunks hash select putOk nodes fid (i + 1) rest with
        | Except.error e => Except.error e
        | Except.ok (rs, st) =>
            Except.ok (mkChunkRow hash fid i node.id d :: rs, (mkChunkPath fid i, d) :: st)
      else
        match (nodes.filter (fun n => decide (n.id ≠ node.id))).head? with
        | none => Except.error "No alternative nodes available for chunk"
        | some alt =>
          if putOk i alt then
            match uploadChunks hash select putOk nodes fid (i + 1) rest with
            | Except.error e => Except.error e
            | Except.ok (rs, st) =>
                Except.ok (mkChunkRow hash fid i alt.id d :: rs, (mkChunkPath fid i, d) :: st)
          else Except.error "Failed to store chunk on any available node"

/-- `FileChunker.chunk_file` (`utils.py` lines 32-165): raises when no
active node exists, then runs the storage loop over the fixed-size split.
Returns the created chunk rows and the objects written to the backends. -/
def chunk_file (hash : List Nat → Nat) (select : Nat → Option FileNode)
    (putOk : Nat → FileNode → Bool) (nodes : List FileNode)
    (chunkSize fid : Nat) (data : List Nat) : Except String (List FileChunk × Store) :=
  if nodes.isEmpty then
    Except.error "No active storage nodes available for storing file chunks"
  else
    uploadChunks hash select putOk nodes fid 1 (chunksOfBytes chunkSize data)

/-- The `FileChunk.objects.get(file_id, chunk_number, is_replica=False,
status=UPLOADED)` call of `NodeSelector.select_node_for_retrieval`
(`retrieval.py` line 82): Django `get` returns the unique match, falls
through on `DoesNotExist` (`ok none`) and raises `MultipleObjectsReturned`
otherwise. -/
def getPrimaryRow (rows : List FileChunk) (fid n : Nat) : Except String (Option FileChunk) :=
  match rows.filter (fun r =>
      decide (r.fileId = fid ∧ r.chunk_number = n ∧ r.is_replica = false ∧
        r.status = ChunkStatus.uploaded)) with
  | [] => Except.ok none
  | [r] => Except.ok (some r)
  | _ :: _ :: _ => Except.error "MultipleObjectsReturned"

/-- `NodeSelector.select_node_for_retrieval` (`retrieval.py` lines 47-105)
on a cold preferred-node cache (the cache only short-circuits to a copy
already selected by an earlier call): prefer the unique primary Uploaded
row, else the first Uploaded replica row, else nothing.  Caching the chosen
row reads `chunk.node.id`, so a row with a null node raises
`AttributeError`. -/
def select_node_for_retrieval (rows : List FileChunk) (fid n : Nat) :
    Except String (Option FileChunk) :=
  match getPrimaryRow rows fid n with
  | Except.error e => Except.error e
  | Except.ok (some r) =>
      if r.node = none then Except.error "AttributeError" else Except.ok (some r)
  | Except.ok none =>
    match rows.find? (fun r =>
        decide (r.fileId = fid ∧ r.chunk_number = n ∧ r.is_replica = true ∧
          r.status = ChunkStatus.uploaded)) with
    | none => Except.ok none
    | some r =>
      if r.node = none then Except.error "AttributeError" else Except.ok (some r)

/-- The body of the per-chunk loop of `FileChunker.reassemble_file_optimized`
(`utils.py` lines 343-381, the operative second definition): select a copy,
read it, verify the digest; on mismatch fetch the first other Uploaded row
for the chunk number (`.exclude(id=chunk.id).first()`), verify it, and fail
if it mismatches too.  A missing object raises `IOError`, caught as a
reassembly failure.  No chunk row is modified on any path (the source
performs no `save()` here). -/
def fetchChunk (hash : List Nat → Nat) (rows : List FileChunk) (store : Store)
    (fid n : Nat) : Except String (List Nat) :=
  match select_node_for_retrieval rows fid n with
  | Except.error e => Except.error e
  | Except.ok none => Except.error "Failed to retrieve chunk"
  | Except.ok (some chunk) =>
    match storeLookup store chunk.storage_path with
    | none => Except.error "Failed to read chunk"
    | some chunk_data =>
      if hash chunk_data = chunk.checksum then Except.ok chunk_data
      else
        match (rows.filter (fun r =>
            decide (r.fileId = fid ∧ r.chunk_number = n ∧
              r.status = ChunkStatus.uploaded ∧ r.id ≠ chunk.id))).head? with
        | none => Except.error "Chunk is corrupted and no alternatives found"
        | some alt =>
          match storeLookup store alt.storage_path with
          | none => Except.error "Failed to read chunk"
          | some alt_data =>
            if hash alt_data = alt.checksum then Except.ok alt_data
            else Except.error "All copies of chunk are corrupted"

/-- The distinct Uploaded chunk numbers of a file
(`utils.py` lines 324-327); duplicates are harmless for the emptiness,
maximum and membership uses below, so `distinct()` is not re-applied. -/
def uploadedNumbers (rows : List FileChunk) (fid : Nat) : List Nat :=
  (rows.filter (fun r => decide (r.fileId = fid ∧ r.status = ChunkStatus.uploaded))).map
    (·.chunk_number)

/-- Python `max(...)` over a nonempty list of chunk numbers. -/
def maxNum (l : List Nat) : Nat := l.foldr max 0

/-- `FileChunker.reassemble_file_optimized` (`utils.py` lines 307-385, the
operative definition): collect Uploaded chunk numbers, fail when none exist
or when a number in `1..max` is missing, then fetch the chunks in ascending
chunk-number order and concatenate.  The second component is the chunk-row
table after the call; the source performs no metadata write anywhere in
this function, so the table passes through unchanged. -/
def reassemble_file_optimized (hash : List Nat → Nat) (rows : List FileChunk)
    (store : Store) (fid : Nat) : Except String (List Nat) × List FileChunk :=
  let nums := uploadedNumbers rows fid
  if nums.isEmpty then (Except.error "No chunks found for this file", rows)
  else
    let N := maxNum nums
    if (List.range' 1 N).any (fun n => !(nums.contains n)) then
      (Except.error "Missing chunks", rows)
    else
      (((List.range' 1 N).mapM (fetchChunk hash rows store fid)).map List.flatten, rows)

/-- The earliest element of minimal measure `f`: the head of the table after
a stable ascending sort on `f`.  This models Django's
`order_by('priority').first()`, where the relative order of equal keys is
the underlying table order (universally quantified in the theorems). -/
def firstMinBy {α : Type} (f : α → Nat) : List α → Option α
  | [] => none
  | a :: l =>
    match firstMinBy f l with
    | none => some a
    | some b => if f a ≤ f b then some a else some b

/-- Set the `is_primary` flag on the row with id `i`
(`candidate.is_primary = True; candidate.save()` in `node_manager.py`). -/
def markPrimary (nodes : List FileNode) (i : Nat) : List FileNode :=
  nodes.map (fun m => if m.id = i then { m with is_primary := true } else m)

/-- `NodeManager.get_primary_node` (`node_manager.py` lines 16-32): return
the first Active node already flagged primary; otherwise elect the Active
node coming first in the priority ordering, set its flag and return it;
with no Active node return nothing.  The result pairs the returned node
with the node table after the call. -/
def get_primary_node (nodes : List FileNode) : Option FileNode × List FileNode :=
  match nodes.find? (fun m =>
      decide (m.is_primary = true ∧ m.status = NodeStatus.active)) with
  | some primary => (some primary, nodes)
  | none =>
    match firstMinBy (·.priority) (nodes.filter (fun m => decide (m.status = NodeStatus.active))) with
    | some candidate => (some candidate, markPrimary nodes candidate.id)
    | none => (none, nodes)

/-- The snapshot returned by `SystemHealth.get_overall_status`
(`health.py` lines 12-64), restricted to the fields the claim is about. -/
structure OverallStatus where
  status : String
  node_health : ℚ
  chunk_health : ℚ
deriving Repr

/-- `SystemHealth.get_overall_status` (`health.py` lines 12-64):
`node_health = active/total*100` (0 with no nodes), `chunk_health =
(total − corrupt − failed)/total*100` over ALL chunk rows regardless of
status (100 with no chunks), then the threshold ladder
`critical` / `warning` / `healthy`. -/
def get_overall_status (nodes : List FileNode) (chunks : List FileChunk) : OverallStatus :=
  let total_nodes := nodes.length
  let active_nodes := (nodes.filter (fun m => decide (m.status = NodeStatus.active))).length
  let total_chunks := chunks.length
  let corrupt_chunks := (chunks.filter (fun r => decide (r.status = ChunkStatus.corrupt))).length
  let failed_chunks := (chunks.filter (fun r => decide (r.status = ChunkStatus.failed))).length
  let node_health : ℚ :=
    if 0 < total_nodes then (active_nodes * 100 : ℚ) / total_nodes else 0
  let chunk_health : ℚ :=
    if 0 < total_chunks then
      ((total_chunks - corrupt_chunks - failed_chunks : ℕ) * 100 : ℚ) / total_chunks
    else 100
  let status :=
    if node_health < 50 ∨ chunk_health < 80 then "critical"
    else if node_health < 75 ∨ chunk_health < 95 then "warning"
    else "healthy"
  { status := status, node_health := node_health, chunk_health := chunk_health }

/-- The status computation as the claim words it (the formulas of spec
§4.10): `node_health = active/total`, `chunk_health =
(uploaded − corrupt − failed)/uploaded`, healthy iff `node_health ≥ 75%`
and `chunk_health ≥ 95%`, warning iff not healthy but `node_health ≥ 50%`
and `chunk_health ≥ 80%`, critical otherwise.  Stated only to be compared
with `get_overall_status`; the degenerate denominators keep the source's
fallbacks so that the comparison is as charitable as possible. -/
def spec_overall_status (nodes : List FileNode) (chunks : List FileChunk) : String :=
  let total_nodes := nodes.length
  let active_nodes := (nodes.filter (fun m => decide (m.status = NodeStatus.active))).length
  let uploaded := (chunks.filter (fun r => decide (r.status = ChunkStatus.uploaded))).length
  let corrupt_chunks := (chunks.filter (fun r => decide (r.status = ChunkStatus.corrupt))).length
  let failed_chunks := (chunks.filter (fun r => decide (r.status = ChunkStatus.failed))).length
  let node_health : ℚ :=
    if 0 < total_nodes then (active_nodes * 100 : ℚ) / total_nodes else 0
  let chunk_health : ℚ :=
    if 0 < uploaded then
      ((uploaded - corrupt_chunks - failed_chunks : ℕ) * 100 : ℚ) / uploaded
    else 100
  if 75 ≤ node_health ∧ 95 ≤ chunk_health then "healthy"
  else if 50 ≤ node_health ∧ 80 ≤ chunk_health then "warning"
  else "critical"

/-- The object key for a replica of `chunk` created on node `target`
(`redundancy.py` lines 105 and 462):
`replicas/{owner}/{file_id}_{chunk_number}_{uuid4}.chunk`; the fresh nonce
is modelled by the target node id, unique per target within one call. -/
def mkReplicaPath (c : FileChunk) (targetId : Nat) : StoragePath :=
  { dir := true, fileId := c.fileId, chunkNumber := c.chunk_number, nonce := targetId }

/-- The replica row inserted by `create_replica_on_node` /
`create_replicas_for_chunk`: same file, number, size and checksum as the
source, `is_replica=True`, `status=UPLOADED`.  Row ids are fresh `uuid4`
values in the source; the model derives one from the target node id. -/
def mkReplicaRow (c : FileChunk) (targetId : Nat) : FileChunk :=
  { id := 1000 + targetId
    fileId := c.fileId
    chunk_number := c.chunk_number
    size_bytes := c.size_bytes
    checksum := c.checksum
    storage_path := mkReplicaPath c targetId
    node := some targetId
    is_replica := true
    status := ChunkStatus.uploaded }

/-- The `FileChunk.objects.filter(file, chunk_number, is_replica=True,
node=target).exists()` query (`redundancy.py` lines 132 and 422). -/
def existsReplicaOn (rows : List FileChunk) (c : FileChunk) (targetId : Nat) : Bool :=
  rows.any (fun r =>
    decide (r.fileId = c.fileId ∧ r.chunk_number = c.chunk_number ∧
      r.is_replica = true ∧ r.node = some targetId))

/-- `RedundancyManager.create_replica_on_node` (`redundancy.py` lines
395-490).  Guards in source order: replica source, non-Uploaded status,
an already-existing replica on the target (returns success without
writing), a null source node; then read the source object, verify its
digest against the stored `checksum` (mismatch: log and return failure —
the source row is not modified), and finally `put_object` to the target
(`putOk`; a failure is caught and returns failure) followed by the replica
row insert.  Returns the success flag and the post-call rows and store. -/
def create_replica_on_node (hash : List Nat → Nat) (putOk : Bool)
    (rows : List FileChunk) (store : Store) (c : FileChunk) (target : FileNode) :
    Bool × List FileChunk × Store :=
  if c.is_replica then (false, rows, store)
  else if c.status ≠ ChunkStatus.uploaded then (false, rows, store)
  else if existsReplicaOn rows c target.id then (true, rows, store)
  else
    match c.node with
    | none => (false, rows, store)
    | some _ =>
      match storeLookup store c.storage_path with
      | none => (false, rows, store)
      | some chunk_data =>
        if hash chunk_data ≠ c.checksum then (false, rows, store)
        else if putOk then
          (true, mkReplicaRow c target.id :: rows,
            (mkReplicaPath c target.id, chunk_data) :: store)
        else (false, rows, store)

/-- The per-candidate body of the loop of
`RedundancyManager.create_replicas_for_chunk` (`redundancy.py` lines
77-161), folded over the candidate targets.  Per candidate: read the
source object (failure: `continue`), verify its digest (mismatch: log and
`continue` — the source row is not modified), `put_object` to the target
(the object is written before the duplicate-row check), skip the row
insert when a replica row already exists on that node, else insert the
replica row and count it. -/
def createReplicasLoop (hash : List Nat → Nat) (putOk : FileNode → Bool)
    (c : FileChunk) : List FileNode → List FileChunk → Store → Nat → Nat × List FileChunk × Store
  | [], rows, store, created => (created, rows, store)
  | node :: rest, rows, store, created =>
    match storeLookup store c.storage_path with
    | none => createReplicasLoop hash putOk c rest rows store created
    | some chunk_data =>
      if hash chunk_data ≠ c.checksum then
        createReplicasLoop hash putOk c rest rows store created
      else if putOk node then
        let store' := (mkReplicaPath c node.id, chunk_data) :: store
        if existsReplicaOn rows c node.id then
          createReplicasLoop hash putOk c rest rows store' created
        else
          createReplicasLoop hash putOk c rest (mkReplicaRow c node.id :: rows) store' (created + 1)
      else createReplicasLoop hash putOk c rest rows store created

/-- `RedundancyManager.create_replicas_for_chunk` (`redundancy.py` lines
25-162) with `min_replicas = minReplicas`: guards (null source node,
replica source, non-Uploaded status), then the loop over the first
`minReplicas` Active nodes not excluded and not the source node.
Returns the number of replicas created and the post-call rows and store. -/
def create_replicas_for_chunk (hash : List Nat → Nat) (minReplicas : Nat)
    (nodes : List FileNode) (putOk : FileNode → Bool) (rows : List FileChunk)
    (store : Store) (c : FileChunk) (excludeIds : List Nat) :
    Nat × List FileChunk × Store :=
  if c.node = none then (0, rows, store)
  else if c.is_replica then (0, rows, store)
  else if c.status ≠ ChunkStatus.uploaded then (0, rows, store)
  else
    let ex := excludeIds ++ (match c.node with | some s => [s] | none => [])
    let active := nodes.filter (fun m =>
      decide (m.status = NodeStatus.active ∧ ¬ m.id ∈ ex))
    if active.isEmpty then (0, rows, store)
    else createReplicasLoop hash putOk c (active.take minReplicas) rows store 0

/-- Whether replica row `r` verifies: its object is readable and hashes to
its stored checksum (the check of `repair_chunk`, `redundancy.py` lines
306-313; a read exception counts as not verifying). -/
def replicaVerifies (hash : List Nat → Nat) (store : Store) (r : FileChunk) : Bool :=
  match storeLookup store r.storage_path with
  | none => false
  | some d => hash d = r.checksum

/-- The Uploaded replica rows of the same file and chunk number
(`redundancy.py` lines 298-303). -/
def replicasOf (rows : List FileChunk) (c : FileChunk) : List FileChunk :=
  rows.filter (fun r =>
    decide (r.fileId = c.fileId ∧ r.chunk_number = c.chunk_number ∧
      r.is_replica = true ∧ r.status = ChunkStatus.uploaded))

/-- The object key written by a successful repair (`redundancy.py` line
317): `chunks/{owner}/{file_id}_{chunk_number}_{timestamp}.chunk`; the
timestamp nonce is modelled by a fixed fresh tag. -/
def mkRepairPath (c : FileChunk) : StoragePath :=
  { dir := false, fileId := c.fileId, chunkNumber := c.chunk_number, nonce := 999 }

/-- `RedundancyManager.repair_chunk` (`redundancy.py` lines 283-334):
replicas are never repaired; otherwise scan the Uploaded replicas of the
chunk, and on the first one whose object verifies, write its bytes under a
new primary key and update the corrupt row's `storage_path` and `status`
to Uploaded; with no verifying replica return failure with rows and store
untouched. -/
def repair_chunk (hash : List Nat → Nat) (rows : List FileChunk) (store : Store)
    (c : FileChunk) : Bool × List FileChunk × Store :=
  if c.is_replica then (false, rows, store)
  else
    match (replicasOf rows c).find? (replicaVerifies hash store) with
    | none => (false, rows, store)
    | some r =>
      let d := (storeLookup store r.storage_path).getD []
      (true,
        rows.map (fun x =>
          if x.id = c.id then
            { x with storage_path := mkRepairPath c, status := ChunkStatus.uploaded }
          else x),
        (mkRepairPath c, d) :: store)

/-- `rows` has an Uploaded replica for chunk number `n` (the
`.exists()` queries of `check_file_integrity`, `redundancy.py` lines
367-372 and 380-385).  `rows` is the chunk set of one file. -/
def hasUploadedReplica (rows : List FileChunk) (n : Nat) : Bool :=
  rows.any (fun r =>
    decide (r.chunk_number = n ∧ r.is_replica = true ∧ r.status = ChunkStatus.uploaded))

/-- `RedundancyManager.check_file_integrity` (`redundancy.py` lines
336-391) on the chunk rows of one file: with no rows at all it returns
`(False, [], [])`; with rows but no primary row, Python's `max([])` raises
`ValueError`; otherwise it computes the missing primary chunk numbers in
`1..max`, the primary rows with status Corrupt or Failed, and
`can_recover` as the conjunction of per-gap and per-corrupt Uploaded
replica existence. -/
def check_file_integrity (rows : List FileChunk) :
    Except String (Bool × List Nat × List FileChunk) :=
  if rows.isEmpty then Except.ok (false, [], [])
  else
    let nums := (rows.filter (fun r => decide (r.is_replica = false))).map (·.chunk_number)
    if nums.isEmpty then Except.error "ValueError: max() arg is an empty sequence"
    else
      let N := maxNum nums
      let missing := (List.range' 1 N).filter (fun n => !(nums.contains n))
      let corrupt := rows.filter (fun r =>
        decide (r.is_replica = false ∧
          (r.status = ChunkStatus.corrupt ∨ r.status = ChunkStatus.failed)))
      let can_recover :=
        missing.all (hasUploadedReplica rows) &&
          corrupt.all (fun r => hasUploadedReplica rows r.chunk_number)
      Except.ok (can_recover, missing, corrupt)

/-- Whether the triple returned by `check_file_integrity` satisfies the
claimed characterisation: `recoverable` iff every missing primary chunk
number and every corrupt primary row has an Uploaded replica.  Stated only
to be compared with the source behaviour. -/
def integrityClaimHolds (rows : List FileChunk) : Bool :=
  match check_file_integrity rows with
  | Except.ok (recoverable, missing, corrupt) =>
      recoverable ==
        (missing.all (hasUploadedReplica rows) &&
          corrupt.all (fun r => hasUploadedReplica rows r.chunk_number))
  | Except.error _ => false

/-- A `PendingReplication` row (spec §3; the model class is referenced by
`process_pending_replications.py` but its declaration is not under
`src/`): the chunk to replicate, the target node, the attempt counter and
the last-attempt timestamp. -/
structure PendingReplication where
  id : Nat
  chunk : FileChunk
  target : FileNode
  attempts : Nat
  last_attempt : Option Nat
deriving DecidableEq, Repr

/-- The drain loop of `process_pending_replications.py` (`Command.handle`,
lines 23-85).  `avail` is `NodeManager.check_node_availability` of the
target, `createOk` the outcome of
`RedundancyManager.create_replica_on_node` (an exception counts as
failure, as in the source's `except` branch), `now` the `timezone.now()`
timestamp.  Returns the queue after the cycle. -/
def drainPending (maxAttempts now : Nat) (avail : FileNode → Bool)
    (createOk : PendingReplication → Bool) : List PendingReplication → List PendingReplication
  | [] => []
  | r :: rest =>
    if maxAttempts ≤ r.attempts then
      r :: drainPending maxAttempts now avail createOk rest
    else if !(avail r.target) then
      { r with attempts := r.attempts + 1, last_attempt := some now } ::
        drainPending maxAttempts now avail createOk rest
    else if createOk r then drainPending maxAttempts now avail createOk rest
    else
      { r with attempts := r.attempts + 1, last_attempt := some now } ::
        drainPending maxAttempts now avail createOk rest

/-- The `unique_together = ('file', 'chunk_number', 'is_replica')`
constraint of `FileChunk.Meta` (`models.py` lines 68-70), as an invariant
on the chunk table: no two rows agree on all three key components. -/
def uniqueTogether (rows : List FileChunk) : Prop :=
  rows.Pairwise (fun r s =>
    ¬ (r.fileId = s.fileId ∧ r.chunk_number = s.chunk_number ∧ r.is_replica = s.is_replica))

/-- Decidability of the uniqueness invariant, for concrete witnesses. -/
instance : DecidablePred uniqueTogether := fun _ =>
  inferInstanceAs (Decidable (List.Pairwise _ _))

/-- The chunk rows a fully successful upload creates: one Uploaded primary
row per piece, numbered from `i`, stored on the nodes listed in `ns`. -/
def mkRows (hash : List Nat → Nat) (fid : Nat) :
    Nat → List (List Nat) → List Nat → List FileChunk
  | _, [], _ => []
  | _, _ :: _, [] => []
  | i, d :: ds, nid :: ns => mkChunkRow hash fid i nid d :: mkRows hash fid (i + 1) ds ns

/-- The backend objects a fully successful upload writes: each piece under
its primary object key, numbered from `i`. -/
def mkStore (fid : Nat) : Nat → List (List Nat) → Store
  | _, [] => []
  | i, d :: ds => (mkChunkPath fid i, d) :: mkStore fid (i + 1) ds

/-- A simple concrete digest function for witnesses and counterexamples
(the theorems quantify over the digest function). -/
def sumHash : List Nat → Nat := fun l => l.foldr (· + ·) 0

/-- Concrete active node for witnesses. -/
def wNode1 : FileNode := { id := 1, priority := 5, status := NodeStatus.active, is_primary := false }

/-- Concrete active node for witnesses. -/
def wNode2 : FileNode := { id := 2, priority := 5, status := NodeStatus.active, is_primary := false }

/-- Concrete active node for witnesses. -/
def wNode3 : FileNode := { id := 3, priority := 5, status := NodeStatus.active, is_primary := false }

/-- A put oracle that succeeds only on node id 3, used to exhibit an upload
failing while an available node was never tried. -/
def putOkOnly3 : Nat → FileNode → Bool := fun _ nd => nd.id == 3

/-- A put oracle that fails on node id 1 and succeeds elsewhere. -/
def putOkNot1 : Nat → FileNode → Bool := fun _ nd => !(nd.id == 1)

/-- The corrupted source chunk of the replica-creation counterexample:
a primary Uploaded row whose stored object no longer matches `checksum`. -/
def cC3 : FileChunk :=
  { id := 10, fileId := 1, chunk_number := 1, size_bytes := 1, checksum := 5
    storage_path := { dir := false, fileId := 1, chunkNumber := 1, nonce := 1 }
    node := some 1, is_replica := false, status := ChunkStatus.uploaded }

/-- The chunk table of the replica-creation counterexample. -/
def rowsC3 : List FileChunk := [cC3]

/-- The object store of the replica-creation counterexample: the source
object reads back as `[7]`, which `sumHash`es to `7 ≠ 5`. -/
def storeC3 : Store := [(cC3.storage_path, [7])]

/-- The mismatching primary of the reassembly counterexample. -/
def pC4 : FileChunk :=
  { id := 1, fileId := 1, chunk_number := 1, size_bytes := 1, checksum := 5
    storage_path := { dir := false, fileId := 1, chunkNumber := 1, nonce := 1 }
    node := some 1, is_replica := false, status := ChunkStatus.uploaded }

/-- The first (also mismatching) replica of the reassembly counterexample. -/
def r1C4 : FileChunk :=
  { id := 2, fileId := 1, chunk_number := 1, size_bytes := 1, checksum := 6
    storage_path := { dir := true, fileId := 1, chunkNumber := 1, nonce := 2 }
    node := some 2, is_replica := true, status := ChunkStatus.uploaded }

/-- The second replica of the reassembly counterexample; its object
verifies against its checksum. -/
def r2C4 : FileChunk :=
  { id := 3, fileId := 1, chunk_number := 1, size_bytes := 1, checksum := 4
    storage_path := { dir := true, fileId := 1, chunkNumber := 1, nonce := 3 }
    node := some 3, is_replica := true, status := ChunkStatus.uploaded }

/-- The chunk table of the reassembly counterexample. -/
def rowsC4 : List FileChunk := [pC4, r1C4, r2C4]

/-- The object store of the reassembly counterexample: primary and first
replica objects are corrupted, the second replica object is good. -/
def storeC4 : Store :=
  [(pC4.storage_path, [7]), (r1C4.storage_path, [7]), (r2C4.storage_path, [4])]

/-- Election counterexample: the Active non-primary node with id 2 placed
before the equal-priority Active non-primary node with id 1 in table order. -/
def nodeTieA : FileNode := { id := 2, priority := 1, status := NodeStatus.active, is_primary := false }

/-- Election counterexample: the lower-id node of the priority tie. -/
def nodeTieB : FileNode := { id := 1, priority := 1, status := NodeStatus.active, is_primary := false }

/-- A chunk row of file 1 with chunk number `i` and status `st`, for the
health counterexample. -/
def mkStatusRow (i : Nat) (st : ChunkStatus) : FileChunk :=
  { id := i, fileId := 1, chunk_number := i, size_bytes := 1, checksum := 0
    storage_path := { dir := false, fileId := 1, chunkNumber := i, nonce := i }
    node := some 1, is_replica := false, status := st }

/-- The chunk population of the health counterexample: 1 Uploaded,
1 Corrupt and 18 Pending rows.  Over all 20 rows the source computes
`chunk_health = 19/20 = 95%`, while over the 1 Uploaded row the claimed
formula gives `(1 − 1 − 0)/1 = 0%`. -/
def chunksC6 : List FileChunk :=
  mkStatusRow 1 ChunkStatus.uploaded :: mkStatusRow 2 ChunkStatus.corrupt ::
    (List.range' 3 18).map (fun i => mkStatusRow i ChunkStatus.pending)

/-- The replica row of the repair witness; its object does not verify. -/
def replC9 : FileChunk :=
  { id := 21, fileId := 1, chunk_number := 1, size_bytes := 1, checksum := 9
    storage_path := { dir := true, fileId := 1, chunkNumber := 1, nonce := 4 }
    node := some 2, is_replica := true, status := ChunkStatus.uploaded }

/-- The corrupt primary of the repair witness. -/
def primC9 : FileChunk :=
  { id := 20, fileId := 1, chunk_number := 1, size_bytes := 1, checksum := 5
    storage_path := { dir := false, fileId := 1, chunkNumber := 1, nonce := 1 }
    node := some 1, is_replica := false, status := ChunkStatus.corrupt }

/-- The chunk table of the repair witness. -/
def rowsC9 : List FileChunk := [primC9, replC9]

/-- The object store of the repair witness: the only replica object reads
back as `[3]`, which does not `sumHash` to its checksum 9. -/
def storeC9 : Store := [(primC9.storage_path, [7]), (replC9.storage_path, [3])]

/-- The chunk table of the uniqueness witness: one primary and one replica
of the same `(file, chunk_number)`, satisfying the constraint. -/
def rowsC10 : List FileChunk := [pC4, r1C4]

/-- The chunk table of the integrity witness: a single Uploaded primary. -/
def rowsC8 : List FileChunk :=
  [{ id := 1, fileId := 1, chunk_number := 1, size_bytes := 1, checksum := 0
     storage_path := { dir := false, fileId := 1, chunkNumber := 1, nonce := 1 }
     node := some 1, is_replica := false, status := ChunkStatus.uploaded }]

/-- In a `Pairwise R` list, a filter whose members are pairwise
`R`-incompatible keeps at most one element. -/
theorem length_filter_le_one_of_pairwise {α : Type} {R : α → α → Prop} (p : α → Bool)
    {l : List α} (hl : l.Pairwise R) (hp : ∀ a b, p a = true → p b = true → ¬ R a b) :
    (l.filter p).length ≤ 1 := by
  induction l with
  | nil => simp
  | cons a t ih =>
    rcases List.pairwise_cons.mp hl with ⟨ha, ht⟩
    by_cases hpa : p a = true
    · have hnil : t.filter p = [] := by
        rw [List.filter_eq_nil_iff]
        intro b hb hpb
        exact hp a b hpa hpb (ha b hb)
      simp [List.filter_cons, hpa, hnil]
    · rw [List.filter_cons_of_neg hpa]
      exact ih ht

/-- C7 (confirmed): every `PendingReplication` row processed in a drain
cycle of `process_pending_replications` is handled independently: a row
with `attempts ≥ max_attempts` is kept unchanged; else if the target node
is still unreachable the row is kept with `attempts` incremented and
`last_attempt` updated; else replica creation is attempted on the target
and the row is deleted exactly when that creation succeeds, otherwise it
is kept with `attempts` incremented and `last_attempt` updated. -/
theorem C7_drain_cycle (maxAttempts now : Nat) (avail : FileNode → Bool)
    (createOk : PendingReplication → Bool) (rows : List PendingReplication) :
    drainPending maxAttempts now avail createOk rows =
      rows.filterMap (fun r =>
        if maxAttempts ≤ r.attempts then some r
        else if !(avail r.target) then
          some { r with attempts := r.attempts + 1, last_attempt := some now }
        else if createOk r then none
        else some { r with attempts := r.attempts + 1, last_attempt := some now }) := by
  induction rows with
  | nil => rfl
  | cons r rest ih =>
    simp only [drainPending, List.filterMap_cons]
    split_ifs <;> simp [ih]

/-- C9 (confirmed): `repair_chunk` never repairs a replica (immediate
failure on `is_replica=true`), and when no Uploaded replica of a chunk
verifies against its stored checksum it returns failure with the chunk
table — hence the primary's `storage_path` and `status` — and the object
store unchanged. -/
theorem C9_repair_chunk (hash : List Nat → Nat) (rows : List FileChunk)
    (store : Store) (c : FileChunk) :
    (c.is_replica = true → repair_chunk hash rows store c = (false, rows, store)) ∧
    ((∀ r ∈ replicasOf rows c, replicaVerifies hash store r = false) →
      repair_chunk hash rows store c = (false, rows, store)) := by
  constructor
  · intro h
    simp [repair_chunk, h]
  · intro h
    by_cases hrep : c.is_replica
    · simp [repair_chunk, hrep]
    · have hnone : (replicasOf rows c).find? (replicaVerifies hash store) = none := by
        rw [List.find?_eq_none]
        intro x hx
        simp [h x hx]
      simp [repair_chunk, hrep, hnone]

/-- Witness for C9: a concrete corrupt primary whose only replica does not
verify is left untouched by `repair_chunk`. -/
theorem C9_repair_chunk_witness :
    repair_chunk sumHash rowsC9 storeC9 primC9 = (false, rowsC9, storeC9) :=
  (C9_repair_chunk sumHash rowsC9 storeC9 primC9).2 (by decide)

/-- C10 (confirmed): under the `unique_together = ('file', 'chunk_number',
'is_replica')` constraint of `FileChunk.Meta`, any `(file, chunk_number)`
pair has at most one replica row, and therefore at most one Uploaded
replica row, whatever `min_replicas` is configured to. -/
theorem C10_at_most_one_replica (rows : List FileChunk) (h : uniqueTogether rows)
    (fid n : Nat) :
    (rows.filter (fun r =>
      decide (r.fileId = fid ∧ r.chunk_number = n ∧ r.is_replica = true))).length ≤ 1 ∧
    (rows.filter (fun r =>
      decide (r.fileId = fid ∧ r.chunk_number = n ∧ r.is_replica = true ∧
        r.status = ChunkStatus.uploaded))).length ≤ 1 := by
  constructor
  · apply length_filter_le_one_of_pairwise _ h
    intro a b ha hb hR
    simp only [decide_eq_true_eq] at ha hb
    exact hR ⟨ha.1.trans hb.1.symm, ha.2.1.trans hb.2.1.symm, ha.2.2.trans hb.2.2.symm⟩
  · apply length_filter_le_one_of_pairwise _ h
    intro a b ha hb hR
    simp only [decide_eq_true_eq] at ha hb
    exact hR ⟨ha.1.trans hb.1.symm, ha.2.1.trans hb.2.1.symm,
      ha.2.2.1.trans hb.2.2.1.symm⟩

/-- Witness for C10: a concrete table with one primary and one replica of
the same chunk satisfies the constraint and the replica bound. -/
theorem C10_at_most_one_replica_witness :
    (rowsC10.filter (fun r =>
      decide (r.fileId = 1 ∧ r.chunk_number = 1 ∧ r.is_replica = true))).length ≤ 1 :=
  (C10_at_most_one_replica rowsC10 (by decide) 1 1).1

/-- `firstMinBy` only returns nothing on the empty list. -/
theorem firstMinBy_eq_none {α : Type} (f : α → Nat) :
    ∀ l : List α, firstMinBy f l = none ↔ l = [] := by
  intro l
  cases l with
  | nil => simp [firstMinBy]
  | cons a t =>
    simp only [firstMinBy]
    cases ht : firstMinBy f t with
    | none => simp
    | some b =>
      by_cases hle : f a ≤ f b <;> simp [hle]

/-- `firstMinBy` returns an element of the list. -/
theorem firstMinBy_mem {α : Type} (f : α → Nat) :
    ∀ (l : List α) (a : α), firstMinBy f l = some a → a ∈ l := by
  intro l
  induction l with
  | nil => intro a h; simp [firstMinBy] at h
  | cons b t ih =>
    intro a h
    simp only [firstMinBy] at h
    cases ht : firstMinBy f t with
    | none =>
      rw [ht] at h
      injection h with h
      subst h
      exact List.mem_cons_self b t
    | some c =>
      rw [ht] at h
      dsimp only at h
      by_cases hle : f b ≤ f c
      · rw [if_pos hle] at h
        injection h with h
        subst h
        exact List.mem_cons_self b t
      · rw [if_neg hle] at h
        injection h with h
        subst h
        exact List.mem_cons_of_mem b (ih c ht)

/-- `firstMinBy` returns an element of minimal measure. -/
theorem firstMinBy_min {α : Type} (f : α → Nat) :
    ∀ (l : List α) (a : α), firstMinBy f l = some a → ∀ b ∈ l, f a ≤ f b := by
  intro l
  induction l with
  | nil => intro a h; simp [firstMinBy] at h
  | cons c t ih =>
    intro a h b hb
    simp only [firstMinBy] at h
    cases ht : firstMinBy f t with
    | none =>
      rw [ht] at h
      injection h with h
      subst h
      have : t = [] := (firstMinBy_eq_none f t).mp ht
      subst this
      rcases List.mem_singleton.mp hb with rfl
      exact Nat.le_refl _
    | some m =>
      rw [ht] at h
      dsimp only at h
      by_cases hle : f c ≤ f m
      · rw [if_pos hle] at h
        injection h with h
        subst h
        rcases List.mem_cons.mp hb with rfl | hbt
        · exact Nat.le_refl _
        · exact Nat.le_trans hle (ih m ht b hbt)
      · rw [if_neg hle] at h
        injection h with h
        subst h
        rcases List.mem_cons.mp hb with rfl | hbt
        · exact Nat.le_of_lt (Nat.lt_of_not_le hle)
        · exact ih m ht b hbt

/-- C5 (amended): when no Active node is flagged primary,
`get_primary_node` returns nothing and changes nothing if no Active node
exists; otherwise it returns some Active node of minimal priority value —
the one coming first in the table's priority ordering, with ties resolved
by table order rather than by node id — and sets exactly that node's
`is_primary` flag. -/
theorem C5_get_primary_node (nodes : List FileNode)
    (h : ∀ m ∈ nodes, ¬ (m.is_primary = true ∧ m.status = NodeStatus.active)) :
    (nodes.filter (fun m => decide (m.status = NodeStatus.active)) = [] →
      get_primary_node nodes = (none, nodes)) ∧
    (nodes.filter (fun m => decide (m.status = NodeStatus.active)) ≠ [] →
      (get_primary_node nodes).1 ≠ none) ∧
    (∀ c, (get_primary_node nodes).1 = some c →
      c.status = NodeStatus.active ∧
      (∀ m ∈ nodes, m.status = NodeStatus.active → c.priority ≤ m.priority) ∧
      (get_primary_node nodes).2 = markPrimary nodes c.id) := by
  have hfind : nodes.find? (fun m =>
      decide (m.is_primary = true ∧ m.status = NodeStatus.active)) = none := by
    rw [List.find?_eq_none]
    intro x hx
    simpa using h x hx
  unfold get_primary_node
  rw [hfind]
  cases hmin : firstMinBy (·.priority)
      (nodes.filter (fun m => decide (m.status = NodeStatus.active))) with
  | none =>
    refine ⟨fun _ => rfl, fun hne => absurd ((firstMinBy_eq_none _ _).mp hmin) hne, ?_⟩
    intro c hc
    simp at hc
  | some cand =>
    refine ⟨?_, fun _ => by simp, ?_⟩
    · intro hemp
      rw [hemp] at hmin
      simp [firstMinBy] at hmin
    · intro c hc
      simp only at hc
      injection hc with hc
      subst hc
      have hmem := firstMinBy_mem _ _ _ hmin
      have hact : cand.status = NodeStatus.active := by
        have := (List.mem_filter.mp hmem).2
        simpa using this
      refine ⟨hact, ?_, rfl⟩
      intro m hm hma
      have hmf : m ∈ nodes.filter (fun m => decide (m.status = NodeStatus.active)) :=
        List.mem_filter.mpr ⟨hm, by simpa using hma⟩
      exact firstMinBy_min _ _ _ hmin m hmf

/-- Witness for C5: with two equal-priority Active non-primary nodes, the
elected node's flag is the one set in the post-call table. -/
theorem C5_get_primary_node_witness :
    (get_primary_node [wNode1, wNode2]).2 = markPrimary [wNode1, wNode2] wNode1.id :=
  ((C5_get_primary_node [wNode1, wNode2] (by decide)).2.2 wNode1 (by decide)).2.2

/-- Counterexample for C5: with two Active nodes of equal priority and no
current primary, the node table order `[id 2, id 1]` makes election return
the node with id 2, not the lowest id. -/
theorem C5_election_tie_cex :
    (get_primary_node [nodeTieA, nodeTieB]).1.map FileNode.id = some 2 ∧
    nodeTieB.id = 1 ∧ nodeTieB.priority = nodeTieA.priority ∧
    nodeTieB.status = NodeStatus.active ∧
    nodeTieA.is_primary = false ∧ nodeTieB.is_primary = false := by
  decide

/-- The threshold ladder of `get_overall_status`: the strict-`<` chain of
the source is equivalent to the `≥`-phrased three-way classification. -/
theorem statusLadder (nh ch : ℚ) :
    ((if nh < 50 ∨ ch < 80 then "critical"
      else if nh < 75 ∨ ch < 95 then "warning" else "healthy") = "healthy" ↔
        75 ≤ nh ∧ 95 ≤ ch) ∧
    ((if nh < 50 ∨ ch < 80 then "critical"
      else if nh < 75 ∨ ch < 95 then "warning" else "healthy") = "warning" ↔
        ¬ (75 ≤ nh ∧ 95 ≤ ch) ∧ 50 ≤ nh ∧ 80 ≤ ch) ∧
    ((if nh < 50 ∨ ch < 80 then "critical"
      else if nh < 75 ∨ ch < 95 then "warning" else "healthy") = "critical" ↔
        ¬ (50 ≤ nh ∧ 80 ≤ ch)) := by
  by_cases h1 : nh < 50 ∨ ch < 80
  · rw [if_pos h1]
    refine ⟨⟨fun h => absurd h (by decide), fun ⟨ha, hb⟩ => ?_⟩,
      ⟨fun h => absurd h (by decide), fun ⟨_, ha, hb⟩ => ?_⟩,
      ⟨fun _ => ?_, fun _ => rfl⟩⟩
    · rcases h1 with h | h <;> exfalso <;> linarith
    · rcases h1 with h | h <;> exfalso <;> linarith
    · rcases h1 with h | h
      · exact fun hc => absurd h (not_lt.mpr hc.1)
      · exact fun hc => absurd h (not_lt.mpr hc.2)
  · rw [if_neg h1]
    push_neg at h1
    by_cases h2 : nh < 75 ∨ ch < 95
    · rw [if_pos h2]
      refine ⟨⟨fun h => absurd h (by decide), fun ⟨ha, hb⟩ => ?_⟩,
        ⟨fun _ => ⟨?_, h1.1, h1.2⟩, fun _ => rfl⟩,
        ⟨fun h => absurd h (by decide), fun hc => absurd ⟨h1.1, h1.2⟩ hc⟩⟩
      · rcases h2 with h | h <;> exfalso <;> linarith
      · rintro ⟨ha, hb⟩
        rcases h2 with h | h <;> linarith
    · rw [if_neg h2]
      push_neg at h2
      refine ⟨⟨fun _ => ⟨h2.1, h2.2⟩, fun _ => rfl⟩,
        ⟨fun h => absurd h (by decide), fun ⟨hn, _, _⟩ => absurd ⟨h2.1, h2.2⟩ hn⟩,
        ⟨fun h => absurd h (by decide), fun hc => absurd ⟨h1.1, h1.2⟩ hc⟩⟩

/-- C6 (amended): `get_overall_status` computes `node_health` as
active/total over all nodes (0 with no nodes) and `chunk_health` as
(total − corrupt − failed)/total over ALL chunk rows — not over the
Uploaded rows — with 100 when no chunks exist, and classifies: healthy iff
node_health ≥ 75 and chunk_health ≥ 95, warning iff not healthy but
node_health ≥ 50 and chunk_health ≥ 80, critical otherwise. -/
theorem C6_get_overall_status (nodes : List FileNode) (chunks : List FileChunk) :
    ((get_overall_status nodes chunks).status = "healthy" ↔
      75 ≤ (get_overall_status nodes chunks).node_health ∧
        95 ≤ (get_overall_status nodes chunks).chunk_health) ∧
    ((get_overall_status nodes chunks).status = "warning" ↔
      ¬ (75 ≤ (get_overall_status nodes chunks).node_health ∧
          95 ≤ (get_overall_status nodes chunks).chunk_health) ∧
        50 ≤ (get_overall_status nodes chunks).node_health ∧
          80 ≤ (get_overall_status nodes chunks).chunk_health) ∧
    ((get_overall_status nodes chunks).status = "critical" ↔
      ¬ (50 ≤ (get_overall_status nodes chunks).node_health ∧
          80 ≤ (get_overall_status nodes chunks).chunk_health)) ∧
    (get_overall_status nodes chunks).node_health =
      (if 0 < nodes.length then
        (((nodes.filter (fun m => decide (m.status = NodeStatus.active))).length * 100 : ℚ) /
          nodes.length)
      else 0) ∧
    (get_overall_status nodes chunks).chunk_health =
      (if 0 < chunks.length then
        ((chunks.length -
            (chunks.filter (fun r => decide (r.status = ChunkStatus.corrupt))).length -
            (chunks.filter (fun r => decide (r.status = ChunkStatus.failed))).length : ℕ) *
          100 : ℚ) / chunks.length
      else 100) :=
  ⟨(statusLadder _ _).1, (statusLadder _ _).2.1, (statusLadder _ _).2.2, rfl, rfl⟩

/-- Counterexample for C6: one Active node with 1 Uploaded, 1 Corrupt and
18 Pending chunks.  The source computes chunk_health over all 20 rows
(95%, so `healthy`), while the claimed formula over the Uploaded count
gives (1−1−0)/1 = 0% (`critical`). -/
theorem C6_chunk_health_cex :
    (get_overall_status [wNode1] chunksC6).status = "healthy" ∧
    spec_overall_status [wNode1] chunksC6 = "critical" ∧
    (chunksC6.filter (fun r => decide (r.status = ChunkStatus.uploaded))).length = 1 ∧
    (chunksC6.filter (fun r => decide (r.status = ChunkStatus.corrupt))).length = 1 ∧
    chunksC6.length = 20 := by
  have hact : (([wNode1] : List FileNode).filter
      (fun m => decide (m.status = NodeStatus.active))).length = 1 := by decide
  have hnl : ([wNode1] : List FileNode).length = 1 := by decide
  have hlen : chunksC6.length = 20 := by decide
  have hcor : (chunksC6.filter (fun r => decide (r.status = ChunkStatus.corrupt))).length = 1 := by
    decide
  have hfail : (chunksC6.filter (fun r => decide (r.status = ChunkStatus.failed))).length = 0 := by
    decide
  have hupl : (chunksC6.filter (fun r => decide (r.status = ChunkStatus.uploaded))).length = 1 := by
    decide
  refine ⟨?_, ?_, hupl, hcor, hlen⟩
  · simp only [get_overall_status, hact, hnl, hlen, hcor, hfail]
    norm_num
  · simp only [spec_overall_status, hact, hnl, hupl, hcor, hfail]
    norm_num

/-- C8 (amended): on the chunk rows of a file that has at least one
primary row, `check_file_integrity` returns a triple whose `recoverable`
component is true exactly when every missing primary chunk number and
every row of the returned corrupt-primary list has an Uploaded replica.
(The source returns `(False, [], [])` for a file with no chunk rows at
all, and raises `ValueError` on rows without any primary.) -/
theorem C8_check_file_integrity (rows : List FileChunk)
    (h : ∃ r ∈ rows, r.is_replica = false) : integrityClaimHolds rows = true := by
  obtain ⟨r0, hr0, hrep0⟩ := h
  have hne : rows.isEmpty = false := by
    cases rows with
    | nil => cases hr0
    | cons a t => rfl
  have hmem : r0 ∈ rows.filter (fun r => decide (r.is_replica = false)) :=
    List.mem_filter.mpr ⟨hr0, by simp [hrep0]⟩
  have hnums : ((rows.filter (fun r => decide (r.is_replica = false))).map
      (·.chunk_number)).isEmpty = false := by
    cases hf : rows.filter (fun r => decide (r.is_replica = false)) with
    | nil =>
      rw [hf] at hmem
      cases hmem
    | cons a t => simp
  unfold integrityClaimHolds check_file_integrity
  simp only [hne, Bool.false_eq_true, if_false, hnums]
  simp

/-- Witness for C8: a file with a single Uploaded primary satisfies the
characterisation. -/
theorem C8_check_file_integrity_witness : integrityClaimHolds rowsC8 = true :=
  C8_check_file_integrity rowsC8 (by decide)

/-- Counterexample for C8: a file with no chunk rows at all.  The source
returns `recoverable = false` with empty missing and corrupt lists,
although the claimed "recoverable iff every gap and corrupt primary has an
Uploaded replica" is vacuously true there. -/
theorem C8_empty_file_cex :
    integrityClaimHolds [] = false ∧
    check_file_integrity [] = Except.ok (false, [], []) :=
  ⟨rfl, rfl⟩

/-- With a corrupted source object, every iteration of the
`create_replicas_for_chunk` candidate loop re-reads the same source bytes,
hits the digest mismatch and `continue`s: nothing is created or changed. -/
theorem createReplicasLoop_mismatch (hash : List Nat → Nat) (putOk : FileNode → Bool)
    (c : FileChunk) (d : List Nat) :
    ∀ (cands : List FileNode) (rows : List FileChunk) (store : Store) (created : Nat),
      storeLookup store c.storage_path = some d → hash d ≠ c.checksum →
      createReplicasLoop hash putOk c cands rows store created = (created, rows, store) := by
  intro cands
  induction cands with
  | nil =>
    intro rows store created _ _
    rfl
  | cons n rest ih =>
    intro rows store created hread hmis
    unfold createReplicasLoop
    rw [hread]
    dsimp only
    rw [if_pos hmis]
    exact ih rows store created hread hmis

/-- C3 (amended): when the bytes read back from the source node hash to a
digest different from the chunk's stored checksum, replica creation
creates no replica — `create_replica_on_node` returns failure and
`create_replicas_for_chunk` reports zero replicas created — but the source
chunk's row is left unchanged: its status is NOT set to Corrupt (only the
error is logged). -/
theorem C3_mismatch_keeps_status (hash : List Nat → Nat) (minReplicas : Nat)
    (nodes : List FileNode) (putOkA : FileNode → Bool) (putOkB : Bool)
    (rows : List FileChunk) (store : Store) (c : FileChunk) (target : FileNode)
    (excludeIds : List Nat) (d : List Nat)
    (hrep : c.is_replica = false) (hst : c.status = ChunkStatus.uploaded)
    (hnode : c.node ≠ none)
    (hex : existsReplicaOn rows c target.id = false)
    (hread : storeLookup store c.storage_path = some d)
    (hmis : hash d ≠ c.checksum) :
    create_replica_on_node hash putOkB rows store c target = (false, rows, store) ∧
    create_replicas_for_chunk hash minReplicas nodes putOkA rows store c excludeIds =
      (0, rows, store) := by
  obtain ⟨s, hs⟩ := Option.ne_none_iff_exists'.mp hnode
  constructor
  · unfold create_replica_on_node
    rw [if_neg (by simp [hrep]), if_neg (by simp [hst]), if_neg (by simp [hex]), hs]
    simp only [hread]
    rw [if_pos hmis]
  · unfold create_replicas_for_chunk
    rw [if_neg hnode, if_neg (by simp [hrep]), if_neg (by simp [hst]), hs]
    by_cases hact : (nodes.filter (fun m =>
        decide (m.status = NodeStatus.active ∧ ¬ m.id ∈ excludeIds ++ [s]))).isEmpty
    · rw [if_pos hact]
    · rw [if_neg hact]
      exact createReplicasLoop_mismatch hash putOkA c d _ rows store 0 hread hmis

/-- Witness for C3: a concrete corrupted source chunk yields failure from
both replica-creation operations with rows and store unchanged. -/
theorem C3_mismatch_keeps_status_witness :
    create_replica_on_node sumHash true rowsC3 storeC3 cC3 wNode3 = (false, rowsC3, storeC3) ∧
    create_replicas_for_chunk sumHash 1 [wNode2, wNode3] (fun _ => true) rowsC3 storeC3 cC3 [] =
      (0, rowsC3, storeC3) :=
  C3_mismatch_keeps_status sumHash 1 [wNode2, wNode3] (fun _ => true) true rowsC3 storeC3
    cC3 wNode3 [] [7] (by decide) (by decide) (by decide) (by decide) (by decide) (by decide)

/-- Counterexample for C3: on a digest mismatch `create_replica_on_node`
returns with the chunk table unchanged — the source chunk keeps status
Uploaded and is not marked Corrupt, contrary to the claim. -/
theorem C3_no_corrupt_mark_cex :
    create_replica_on_node sumHash true rowsC3 storeC3 cC3 wNode2 = (false, rowsC3, storeC3) ∧
    rowsC3 = [cC3] ∧ cC3.status = ChunkStatus.uploaded ∧
    storeLookup storeC3 cC3.storage_path = some [7] ∧ sumHash [7] ≠ cC3.checksum := by
  decide

/-- The upload result of the C2 witness run: the chunk lands on node 2,
the single designated alternative after node 1 fails. -/
def outC2 : List FileChunk × Store :=
  ([mkChunkRow sumHash 1 1 2 [0]], [(mkChunkPath 1 1, [0])])

/-- C2 (amended): on a `put_object` failure for a chunk, `chunk_file`
retries exactly one alternative node — the first active node with a
different id — so an upload that succeeds past a failed put implies that
this single designated alternative accepted the chunk.  (Conversely, if
that one alternative also fails, the upload fails even when further
available nodes were never tried.) -/
theorem C2_upload_single_alternative (hash : List Nat → Nat)
    (select : Nat → Option FileNode) (putOk : Nat → FileNode → Bool)
    (nodes : List FileNode) (fid i : Nat) (d : List Nat) (rest : List (List Nat))
    (nd : FileNode) (out : List FileChunk × Store)
    (hsel : select i = some nd) (hfail : putOk i nd = false)
    (hok : uploadChunks hash select putOk nodes fid i (d :: rest) = Except.ok out) :
    ((nodes.filter (fun n => decide (n.id ≠ nd.id))).head?.any
      (fun a => putOk i a)) = true := by
  unfold uploadChunks at hok
  rw [hsel] at hok
  dsimp only at hok
  rw [hfail] at hok
  rw [if_neg (by simp)] at hok
  cases halt : (nodes.filter (fun n => decide (n.id ≠ nd.id))).head? with
  | none =>
    rw [halt] at hok
    exact absurd hok (by simp)
  | some alt =>
    rw [halt] at hok
    dsimp only at hok
    by_cases hpa : putOk i alt
    · simp [Option.any, hpa]
    · rw [if_neg (by simp [hpa])] at hok
      exact absurd hok (by simp)

/-- Witness for C2: node 1 fails, so success of the upload forces the
designated alternative (node 2) to have accepted the chunk. -/
theorem C2_upload_single_alternative_witness :
    ((([wNode1, wNode2] : List FileNode).filter
      (fun n => decide (n.id ≠ wNode1.id))).head?.any (fun a => putOkNot1 1 a)) = true :=
  C2_upload_single_alternative sumHash (fun _ => some wNode1) putOkNot1 [wNode1, wNode2]
    1 1 [0] [] wNode1 outC2 rfl rfl rfl

/-- Counterexample for C2: with three active nodes, node 1 selected and
failing, the code retries only node 2; node 3 — available and able to
accept the chunk — is never tried, yet the whole upload fails. -/
theorem C2_untried_node_cex :
    chunk_file sumHash (fun _ => some wNode1) putOkOnly3 [wNode1, wNode2, wNode3] 1 1 [0] =
      Except.error "Failed to store chunk on any available node" ∧
    putOkOnly3 1 wNode3 = true ∧ wNode3 ∈ [wNode1, wNode2, wNode3] :=
  ⟨rfl, rfl, by decide⟩

/-- The operative reassembly path performs no metadata write: the chunk
table after `reassemble_file_optimized` equals the table before on every
input (the source contains no `save()` in this function). -/
theorem reassemble_preserves_rows (hash : List Nat → Nat) (rows : List FileChunk)
    (store : Store) (fid : Nat) :
    (reassemble_file_optimized hash rows store fid).2 = rows := by
  unfold reassemble_file_optimized
  dsimp only
  split
  · rfl
  · split <;> rfl

/-- C4 (amended): when the selected (primary) copy of a chunk mismatches
its stored digest, the reassembler does NOT mark the row Corrupt — no
chunk row is modified — and it consults only the first other Uploaded row
of that chunk number: if that single alternative also mismatches, the
chunk fetch fails regardless of any further replicas. -/
theorem C4_mismatch_no_mark (hash : List Nat → Nat) (rows : List FileChunk)
    (store : Store) (fid n : Nat) (p a : FileChunk) (d da : List Nat)
    (hp : select_node_for_retrieval rows fid n = Except.ok (some p))
    (hread : storeLookup store p.storage_path = some d)
    (hmis : hash d ≠ p.checksum)
    (halt : (rows.filter (fun r => decide (r.fileId = fid ∧ r.chunk_number = n ∧
        r.status = ChunkStatus.uploaded ∧ r.id ≠ p.id))).head? = some a)
    (hreada : storeLookup store a.storage_path = some da)
    (hmisa : hash da ≠ a.checksum) :
    fetchChunk hash rows store fid n = Except.error "All copies of chunk are corrupted" ∧
    (reassemble_file_optimized hash rows store fid).2 = rows := by
  refine ⟨?_, reassemble_preserves_rows hash rows store fid⟩
  unfold fetchChunk
  rw [hp]
  dsimp only
  rw [hread]
  dsimp only
  rw [if_neg hmis, halt]
  dsimp only
  rw [hreada]
  dsimp only
  rw [if_neg hmisa]

/-- The chunk table of the C4 witness: mismatching primary and one
mismatching replica. -/
def rowsW4 : List FileChunk := [pC4, r1C4]

/-- The object store of the C4 witness: both objects are corrupted. -/
def storeW4 : Store := [(pC4.storage_path, [7]), (r1C4.storage_path, [7])]

/-- Witness for C4: a concrete mismatching primary with a mismatching
first alternative makes the fetch fail and leaves the table unchanged. -/
theorem C4_mismatch_no_mark_witness :
    fetchChunk sumHash rowsW4 storeW4 1 1 = Except.error "All copies of chunk are corrupted" ∧
    (reassemble_file_optimized sumHash rowsW4 storeW4 1).2 = rowsW4 :=
  C4_mismatch_no_mark sumHash rowsW4 storeW4 1 1 pC4 r1C4 [7] [7]
    rfl rfl (by decide) rfl rfl (by decide)

/-- Counterexample for C4: a mismatching primary is NOT marked Corrupt
(the table is returned unchanged, the primary still Uploaded), and the
reassembler fails after the first mismatching alternative even though a
later replica (`r2C4`) verifies — it does not continue through the
replicas as claimed. -/
theorem C4_reassembly_no_mark_cex :
    (reassemble_file_optimized sumHash rowsC4 storeC4 1).1 =
      Except.error "All copies of chunk are corrupted" ∧
    (reassemble_file_optimized sumHash rowsC4 storeC4 1).2 = rowsC4 ∧
    pC4.status = ChunkStatus.uploaded ∧ pC4.is_replica = false ∧
    replicaVerifies sumHash storeC4 r2C4 = true ∧ r2C4 ∈ rowsC4 :=
  ⟨rfl, rfl, rfl, rfl, rfl, by decide⟩

/-- Flattening the fixed-size split returns the original bytes (fuel-general
form; the fuel bound mirrors the loop running at most once per byte). -/
theorem chunksGo_flatten (cs : Nat) :
    ∀ (fuel : Nat) (data : List Nat), data.length < fuel →
      (chunksGo fuel (cs + 1) data).flatten = data := by
  intro fuel
  induction fuel with
  | zero =>
    intro data h
    exact absurd h (Nat.not_lt_zero _)
  | succ f ih =>
    intro data h
    cases data with
    | nil => rfl
    | cons b rest =>
      simp only [chunksGo, List.flatten_cons]
      rw [ih (rest.drop cs) (by
        simp only [List.length_drop]
        simp only [List.length_cons] at h
        omega)]
      rw [show rest.drop cs = (b :: rest).drop (cs + 1) from (List.drop_succ_cons ..).symm,
        List.take_append_drop]

/-- Flattening the fixed-size split returns the original bytes. -/
theorem chunksOfBytes_flatten (cs : Nat) (data : List Nat) (h : 1 ≤ cs) :
    (chunksOfBytes cs data).flatten = data := by
  cases cs with
  | zero => omega
  | succ c => exact chunksGo_flatten c (data.length + 1) data (Nat.lt_succ_self _)

/-- A nonempty input with a positive chunk size yields at least one chunk. -/
theorem chunksOfBytes_ne_nil (cs : Nat) (data : List Nat) (h1 : 1 ≤ cs)
    (h2 : data ≠ []) : chunksOfBytes cs data ≠ [] := by
  cases cs with
  | zero => omega
  | succ c =>
    cases data with
    | nil => exact absurd rfl h2
    | cons b rest => simp [chunksOfBytes, chunksGo]

/-- Characterisation of a fully successful upload loop: the created rows
are the canonical Uploaded primaries over the pieces (on some sequence of
node ids) and the store holds each piece under its primary key. -/
theorem uploadChunks_ok_shape (hash : List Nat → Nat) (select : Nat → Option FileNode)
    (putOk : Nat → FileNode → Bool) (nodes : List FileNode) (fid : Nat) :
    ∀ (pieces : List (List Nat)) (i : Nat) (rows : List FileChunk) (store : Store),
      uploadChunks hash select putOk nodes fid i pieces = Except.ok (rows, store) →
      ∃ nids : List Nat, nids.length = pieces.length ∧
        rows = mkRows hash fid i pieces nids ∧ store = mkStore fid i pieces := by
  intro pieces
  induction pieces with
  | nil =>
    intro i rows store h
    unfold uploadChunks at h
    simp only [Except.ok.injEq, Prod.mk.injEq] at h
    obtain ⟨h1, h2⟩ := h
    subst h1
    subst h2
    exact ⟨[], rfl, rfl, rfl⟩
  | cons d ds ih =>
    intro i rows store h
    unfold uploadChunks at h
    cases hsel : select i with
    | none =>
      rw [hsel] at h
      exact absurd h (by simp)
    | some node =>
      rw [hsel] at h
      dsimp only at h
      by_cases hput : putOk i node
      · rw [if_pos hput] at h
        cases hrec : uploadChunks hash select putOk nodes fid (i + 1) ds with
        | error e =>
          rw [hrec] at h
          exact absurd h (by simp)
        | ok pr =>
          obtain ⟨rs, st⟩ := pr
          rw [hrec] at h
          dsimp only at h
          simp only [Except.ok.injEq, Prod.mk.injEq] at h
          obtain ⟨h1, h2⟩ := h
          obtain ⟨nids, hlen, hrows, hstore⟩ := ih (i + 1) rs st hrec
          refine ⟨node.id :: nids, by simp [hlen], ?_, ?_⟩
          · rw [← h1, hrows]
            rfl
          · rw [← h2, hstore]
            rfl
      · rw [if_neg hput] at h
        cases halt : (nodes.filter (fun n => decide (n.id ≠ node.id))).head? with
        | none =>
          rw [halt] at h
          exact absurd h (by simp)
        | some alt =>
          rw [halt] at h
          dsimp only at h
          by_cases hput2 : putOk i alt
          · rw [if_pos hput2] at h
            cases hrec : uploadChunks hash select putOk nodes fid (i + 1) ds with
            | error e =>
              rw [hrec] at h
              exact absurd h (by simp)
            | ok pr =>
              obtain ⟨rs, st⟩ := pr
              rw [hrec] at h
              dsimp only at h
              simp only [Except.ok.injEq, Prod.mk.injEq] at h
              obtain ⟨h1, h2⟩ := h
              obtain ⟨nids, hlen, hrows, hstore⟩ := ih (i + 1) rs st hrec
              refine ⟨alt.id :: nids, by simp [hlen], ?_, ?_⟩
              · rw [← h1, hrows]
                rfl
              · rw [← h2, hstore]
                rfl
          · rw [if_neg hput2] at h
            exact absurd h (by simp)

/-- The Uploaded chunk numbers of a canonical upload are `i .. i+L-1`. -/
theorem uploadedNumbers_mkRows (hash : List Nat → Nat) (fid : Nat) :
    ∀ (ds : List (List Nat)) (ns : List Nat) (i : Nat), ns.length = ds.length →
      uploadedNumbers (mkRows hash fid i ds ns) fid = List.range' i ds.length := by
  intro ds
  induction ds with
  | nil =>
    intro ns i _
    rfl
  | cons d dt ih =>
    intro ns i h
    cases ns with
    | nil => simp at h
    | cons m nt =>
      simp only [mkRows, uploadedNumbers]
      rw [List.filter_cons_of_pos (by dsimp only [mkChunkRow]; simp)]
      rw [List.map_cons]
      have := ih nt (i + 1) (by simpa using h)
      simp only [uploadedNumbers] at this
      rw [this]
      simp [List.range'_succ, mkChunkRow]

/-- Rows of a canonical upload starting above `n` never match chunk
number `n`. -/
theorem mkRows_filter_number_lt (hash : List Nat → Nat) (fid n : Nat) :
    ∀ (ds : List (List Nat)) (ns : List Nat) (i : Nat), n < i →
      (mkRows hash fid i ds ns).filter (fun r =>
        decide (r.fileId = fid ∧ r.chunk_number = n ∧ r.is_replica = false ∧
          r.status = ChunkStatus.uploaded)) = [] := by
  intro ds
  induction ds with
  | nil =>
    intro ns i _
    cases ns <;> rfl
  | cons d dt ih =>
    intro ns i h
    cases ns with
    | nil => rfl
    | cons m nt =>
      simp only [mkRows]
      rw [List.filter_cons_of_neg (by
        dsimp only [mkChunkRow]
        simp only [decide_eq_true_eq]
        rintro ⟨-, h1, -⟩
        omega)]
      exact ih nt (i + 1) (by omega)

/-- In a canonical upload each chunk number in range selects exactly its
own primary row. -/
theorem mkRows_filter_number (hash : List Nat → Nat) (fid : Nat) :
    ∀ (ds : List (List Nat)) (ns : List Nat) (i n : Nat), ns.length = ds.length →
      i ≤ n → n < i + ds.length →
      (mkRows hash fid i ds ns).filter (fun r =>
        decide (r.fileId = fid ∧ r.chunk_number = n ∧ r.is_replica = false ∧
          r.status = ChunkStatus.uploaded)) =
        [mkChunkRow hash fid n (ns.getD (n - i) 0) (ds.getD (n - i) [])] := by
  intro ds
  induction ds with
  | nil =>
    intro ns i n _ h1 h2
    exfalso
    simp only [List.length_nil, Nat.add_zero] at h2
    omega
  | cons d dt ih =>
    intro ns i n hlen h1 h2
    cases ns with
    | nil => simp at hlen
    | cons m nt =>
      simp only [mkRows]
      by_cases hn : n = i
      · subst hn
        rw [List.filter_cons_of_pos (by dsimp only [mkChunkRow]; simp)]
        rw [mkRows_filter_number_lt hash fid n dt nt (n + 1) (by omega)]
        simp
      · rw [List.filter_cons_of_neg (by
          dsimp only [mkChunkRow]
          simp only [decide_eq_true_eq]
          rintro ⟨-, h', -⟩
          exact hn h'.symm)]
        rw [ih nt (i + 1) n (by simpa using hlen) (by omega)
          (by simp only [List.length_cons] at h2; omega)]
        have hk : n - i = (n - (i + 1)) + 1 := by omega
        rw [hk, List.getD_cons_succ, List.getD_cons_succ]

/-- In a canonical store each primary key in range reads back its piece. -/
theorem storeLookup_mkStore (fid : Nat) :
    ∀ (ds : List (List Nat)) (i n : Nat), i ≤ n → n < i + ds.length →
      storeLookup (mkStore fid i ds) (mkChunkPath fid n) = some (ds.getD (n - i) []) := by
  intro ds
  induction ds with
  | nil =>
    intro i n h1 h2
    exfalso
    simp only [List.length_nil, Nat.add_zero] at h2
    omega
  | cons d dt ih =>
    intro i n h1 h2
    by_cases hn : n = i
    · subst hn
      simp [mkStore, storeLookup, List.find?, mkChunkPath]
    · have hfind : storeLookup (mkStore fid (i + 1) dt) (mkChunkPath fid n) =
          some (dt.getD (n - (i + 1)) []) :=
        ih (i + 1) n (by omega) (by simp only [List.length_cons] at h2; omega)
      simp only [mkStore, storeLookup, List.find?] at hfind ⊢
      rw [show (decide ((mkChunkPath fid i, d).1 = mkChunkPath fid n)) = false by
        simp only [mkChunkPath, decide_eq_false_iff_not, StoragePath.mk.injEq]
        rintro ⟨-, -, h', -⟩
        exact hn h'.symm]
      rw [hfind]
      have hk : n - i = (n - (i + 1)) + 1 := by omega
      rw [hk, List.getD_cons_succ]

/-- The maximum of `range' (i+1) L` under `foldr max 0`. -/
theorem maxNum_range'_aux : ∀ (L i : Nat),
    maxNum (List.range' (i + 1) L) = if L = 0 then 0 else i + L := by
  intro L
  induction L with
  | zero => intro i; rfl
  | succ K ih =>
    intro i
    rw [List.range'_succ]
    simp only [maxNum, List.foldr_cons]
    have := ih (i + 1)
    simp only [maxNum] at this
    rw [this]
    rcases Nat.eq_zero_or_pos K with hK | hK
    · subst hK
      simp
    · rw [if_neg (by omega), if_neg (by omega)]
      rw [Nat.max_eq_right (by omega)]
      omega

/-- The maximum chunk number over `1 .. L` is `L`. -/
theorem maxNum_range'_one (L : Nat) (h : 1 ≤ L) : maxNum (List.range' 1 L) = L := by
  have := maxNum_range'_aux L 0
  rw [if_neg (by omega)] at this
  simpa using this

/-- Traversal with `mapM` of pointwise-successful fetches collects all
results in order. -/
theorem mapM_ok_of_forall {α β : Type} (g : α → Except String β) (v : α → β) :
    ∀ l : List α, (∀ a ∈ l, g a = Except.ok (v a)) → l.mapM g = Except.ok (l.map v) := by
  intro l
  induction l with
  | nil => intro _; rfl
  | cons a t ih =>
    intro h
    rw [List.mapM_cons, h a (List.mem_cons_self a t),
      ih (fun b hb => h b (List.mem_cons_of_mem a hb))]
    rfl

/-- Reading a list back by positions `s .. s+len-1` reproduces the list. -/
theorem map_getD_range' {α : Type} (dflt : α) :
    ∀ (l : List α) (s : Nat),
      (List.range' s l.length).map (fun n => l.getD (n - s) dflt) = l := by
  intro l
  induction l with
  | nil => intro s; rfl
  | cons a t ih =>
    intro s
    rw [List.length_cons, List.range'_succ, List.map_cons]
    have hcong : ∀ n ∈ List.range' (s + 1) t.length,
        (a :: t).getD (n - s) dflt = t.getD (n - (s + 1)) dflt := by
      intro n hn
      have hs : s + 1 ≤ n := by
        rcases List.mem_range'.mp hn with ⟨k, -, rfl⟩
        omega
      rw [show n - s = (n - (s + 1)) + 1 by omega, List.getD_cons_succ]
    rw [List.map_congr_left hcong, ih (s + 1)]
    simp

/-- Fetching any in-range chunk number from a canonical upload returns the
corresponding piece: the unique primary row is selected, its object reads
back, and the digest check passes. -/
theorem fetchChunk_mkRows (hash : List Nat → Nat) (fid : Nat) (pieces : List (List Nat))
    (nids : List Nat) (n : Nat) (hlen : nids.length = pieces.length)
    (h1 : 1 ≤ n) (h2 : n < 1 + pieces.length) :
    fetchChunk hash (mkRows hash fid 1 pieces nids) (mkStore fid 1 pieces) fid n =
      Except.ok (pieces.getD (n - 1) []) := by
  have hfilter := mkRows_filter_number hash fid pieces nids 1 n hlen h1 h2
  unfold fetchChunk select_node_for_retrieval getPrimaryRow
  rw [hfilter]
  dsimp only [mkChunkRow]
  rw [if_neg (by simp)]
  dsimp only
  rw [storeLookup_mkStore fid pieces 1 n h1 h2]
  dsimp only
  rw [if_pos rfl]

/-- C1 (amended): for every NONEMPTY byte string and positive chunk size,
a successful upload through `chunk_file` followed by
`reassemble_file_optimized` returns exactly the original bytes, assembled
in ascending chunk-number order — over every digest function, node
selection and put-outcome behaviour under which the upload succeeds.
(The empty byte string uploads successfully with zero chunks but then
fails to reassemble; see the counterexample.) -/
theorem C1_roundtrip (hash : List Nat → Nat) (select : Nat → Option FileNode)
    (putOk : Nat → FileNode → Bool) (nodes : List FileNode) (chunkSize fid : Nat)
    (data : List Nat) (rows : List FileChunk) (store : Store)
    (hcs : 1 ≤ chunkSize) (hdata : data ≠ [])
    (hok : chunk_file hash select putOk nodes chunkSize fid data = Except.ok (rows, store)) :
    (reassemble_file_optimized hash rows store fid).1 = Except.ok data := by
  unfold chunk_file at hok
  by_cases hns : nodes.isEmpty
  · rw [if_pos hns] at hok
    exact absurd hok (by simp)
  · rw [if_neg hns] at hok
    obtain ⟨nids, hlen, hrows, hstore⟩ :=
      uploadChunks_ok_shape hash select putOk nodes fid _ 1 rows store hok
    subst hrows
    subst hstore
    have hpne : chunksOfBytes chunkSize data ≠ [] :=
      chunksOfBytes_ne_nil chunkSize data hcs hdata
    set pieces := chunksOfBytes chunkSize data with hpieces
    have hL : 1 ≤ pieces.length := by
      cases hp : pieces with
      | nil => exact absurd hp hpne
      | cons x xs => simp
    have hnums : uploadedNumbers (mkRows hash fid 1 pieces nids) fid =
        List.range' 1 pieces.length :=
      uploadedNumbers_mkRows hash fid pieces nids 1 hlen
    have hfetch : ∀ n ∈ List.range' 1 pieces.length,
        fetchChunk hash (mkRows hash fid 1 pieces nids) (mkStore fid 1 pieces) fid n =
          Except.ok (pieces.getD (n - 1) []) := by
      intro n hn
      obtain ⟨ha, hb⟩ := List.mem_range'_1.mp hn
      exact fetchChunk_mkRows hash fid pieces nids n hlen ha hb
    unfold reassemble_file_optimized
    simp only [hnums]
    rw [if_neg (by
      simp only [List.isEmpty_iff]
      intro he
      rw [List.range'_eq_nil] at he
      omega)]
    rw [maxNum_range'_one pieces.length hL]
    rw [if_neg (by
      simp only [List.any_eq_true, not_exists, not_and, Bool.not_eq_true]
      intro n hn
      simp only [List.contains, List.elem_eq_true_of_mem hn, Bool.not_true,
        Bool.false_eq_true, not_false_eq_true])]
    rw [mapM_ok_of_forall _ (fun n => pieces.getD (n - 1) []) _ hfetch]
    have hmapred : Except.map List.flatten
        (Except.ok ((List.range' 1 pieces.length).map (fun n => pieces.getD (n - 1) []))) =
        (Except.ok (((List.range' 1 pieces.length).map
          (fun n => pieces.getD (n - 1) [])).flatten) : Except String (List Nat)) := rfl
    rw [hmapred, map_getD_range' [] pieces 1]
    rw [hpieces, chunksOfBytes_flatten chunkSize data hcs]

/-- The chunk rows of the C1 witness upload (file 1, chunk size 2,
bytes `[1,2,3]`, both chunks on node 1). -/
def rowsW1 : List FileChunk :=
  [mkChunkRow sumHash 1 1 1 [1, 2], mkChunkRow sumHash 1 2 1 [3]]

/-- The backend objects of the C1 witness upload. -/
def storeW1 : Store := [(mkChunkPath 1 1, [1, 2]), (mkChunkPath 1 2, [3])]

/-- Witness for C1: uploading `[1,2,3]` with chunk size 2 and reassembling
returns `[1,2,3]`. -/
theorem C1_roundtrip_witness :
    (reassemble_file_optimized sumHash rowsW1 storeW1 1).1 = Except.ok [1, 2, 3] :=
  C1_roundtrip sumHash (fun _ => some wNode1) (fun _ _ => true) [wNode1] 2 1 [1, 2, 3]
    rowsW1 storeW1 (by decide) (by decide) rfl

/-- Counterexample for C1: the empty byte string (length ≤ 1 GiB) uploads
successfully producing zero chunks, but reassembly of the result fails
with "No chunks found" instead of returning the empty byte string. -/
theorem C1_empty_file_cex :
    chunk_file sumHash (fun _ => some wNode1) (fun _ _ => true) [wNode1] 5 1 [] =
      Except.ok ([], []) ∧
    (reassemble_file_optimized sumHash [] [] 1).1 =
      Except.error "No chunks found for this file" :=
  ⟨rfl, rfl⟩

end FileStorage
